import Mathlib

/-!
Verification development for the aitios-cli weathering-simulation pipeline.

The definitions below are a shallow embedding of the Rust sources:

* `src/spec/*.rs` — the declarative specification data model,
* `src/builder/append.rs` — the spec merge algebra,
* `src/builder/instantiate.rs` — simulation instantiation,
* `src/runner/surfel_table_cache.rs` — the surfel table cache,
* `src/runner/runner.rs` — the iteration loop and blend sizing.

Modelling conventions: `f32` values become `Rat` (only equality and order
comparisons on finite values occur in the embedded code), `PathBuf` becomes
`String`, `HashMap` becomes an association list with first-match lookup,
fallible code returns `Except`, and Rust panics are a distinguished
`Failure.panic` outcome.  External collaborators (file resolution, YAML
parsing, OBJ loading, image I/O, surface sampling) are parameters
("oracles") of the embedded functions.  The iteration order of a Rust
`HashSet` is unspecified and randomized per instance; it is modelled by an
explicit order-choice function constrained to produce permutations.
-/

namespace Aitios

/-- Embedded `f32`: the code only compares these values, never rounds. -/
abbrev F32 := Rat

/-- `aitios_geom::Vec3`, opaque payload of triangle geometry. -/
structure Vec3 where
  x : F32
  y : F32
  z : F32
deriving DecidableEq

/-- A triangle as produced by `mesh.triangles()`. -/
abbrev Triangle := Vec3 × Vec3 × Vec3

/-- A mesh, reduced to the triangle sequence that the embedded code observes. -/
abbrev Mesh := List Triangle

/-- The per-channel texture paths of a named material
(`aitios_scene::Material`, accessed through `MaterialBuilder`). -/
structure Material where
  name : String
  normal_map : Option String
  displacement_map : Option String
  diffuse_color_map : Option String
  metallic_map : Option String
  roughness_map : Option String
deriving DecidableEq

/-- `aitios_scene::Entity`: name, mesh and material. -/
structure Entity where
  name : String
  mesh : Mesh
  material : Material
deriving DecidableEq

/-- `spec::SurfelLookup` from `src/spec/effect.rs`. -/
inductive SurfelLookup where
  | nearest (count : Nat)
  | within (within : F32)
deriving DecidableEq

/-- `spec::Stop` from `src/spec/effect.rs`: a guided-blend stop. -/
structure Stop where
  sample : Option String
  cenith : F32
deriving DecidableEq

/-- `spec::Blend` from `src/spec/effect.rs`. -/
structure Blend where
  width : Option Nat
  height : Option Nat
  stops : List Stop
  influence : F32
  tex_pattern : String
deriving DecidableEq

/-- `spec::EffectSpec` from `src/spec/effect.rs`.  The Rust variant
`Export` is spelled `exportScene` because `export` is reserved in Lean. -/
inductive EffectSpec where
  | density (width height : Nat) (surfel_lookup : SurfelLookup)
      (island_bleed : Nat) (tex_pattern : String)
      (obj_pattern mtl_pattern : Option String)
  | exportScene (obj_pattern mtl_pattern : Option String)
  | layer (materials : List String) (substance : String)
      (surfel_lookup : SurfelLookup) (island_bleed : Nat)
      (normal displacement albedo metallicity roughness : Option Blend)
  | dumpSurfels (obj_pattern : String)
deriving DecidableEq

/-- `spec::SurfelRuleSpec`.  `src/builder/instantiate.rs` resolves the three
variants `Transfer`, `Deteriorate` and `Deposit`; the snapshot of
`src/spec/surfel.rs` lacks `Deposit`, the superset from the cited resolver
is used. -/
inductive SurfelRuleSpec where
  | transfer (fromName toName : String) (factor : F32)
  | deteriorate (fromName : String) (factor : F32)
  | deposit (toName : String) (amount : F32)
deriving DecidableEq

/-- `spec::TonReflectance` from `src/spec/surfel.rs`. -/
structure TonReflectance where
  delta_straight : F32
  delta_parabolic : F32
  delta_flow : F32
deriving DecidableEq

/-- `spec::SurfelSpec` from `src/spec/surfel.rs`; the `initial` and
`deposit` maps are association lists standing in for `HashMap<String, f32>`. -/
structure SurfelSpec where
  name : String
  description : String
  reflectance : TonReflectance
  initial : List (String × F32)
  deposit : List (String × F32)
  rules : List SurfelRuleSpec
deriving DecidableEq

/-- `spec::TonSourceSpec` from `src/spec/source.rs`. -/
structure TonSourceSpec where
  name : String
  description : String
  mesh : String
  emission_count : Nat
  diffuse : Bool
  p_straight : F32
  p_parabolic : F32
  p_flow : F32
  initial : List (String × F32)
  absorb : List (String × F32)
  interaction_radius : F32
  parabola_height : F32
  flow_distance : F32
  flow_direction : Option Vec3
deriving DecidableEq

/-- `spec::BenchSpec` from `src/spec/bench.rs`. -/
structure BenchSpec where
  iterations : Option String
  tracing : Option String
  synthesis : Option String
  setup : Option String
deriving DecidableEq

/-- `spec::Transport` from `src/spec/transport.rs`. -/
inductive Transport where
  | classic
  | consistent
  | conserving
  | differential
deriving DecidableEq

/-- `spec::SimulationSpec`.  The snapshot mixes two revisions: the struct in
`src/spec/sim.rs` has `transport` and `rules`, while `src/builder/append.rs`
constructs a revision that instead has `consistent_transport`.  The embedding
carries the union of both revisions so that both the merge algebra and the
instantiation can be stated; the unused `flat_filtering` field is omitted. -/
structure SimulationSpec where
  name : String
  description : String
  scenes : List String
  iterations : Option Nat
  effect_interval : Option Nat
  log : Option String
  surfel_distance : Option F32
  sources : List String
  surfels_by_material : List (String × String)
  effects : List EffectSpec
  benchmark : Option BenchSpec
  transport : Option Transport
  rules : List SurfelRuleSpec
  consistent_transport : Option Bool
deriving DecidableEq

/-- `impl Default for SimulationSpec` from `src/spec/sim.rs`. -/
def SimulationSpec.default : SimulationSpec where
  name := ""
  description := ""
  scenes := []
  iterations := none
  effect_interval := none
  log := none
  surfel_distance := none
  sources := []
  surfels_by_material := []
  effects := []
  benchmark := none
  transport := none
  rules := []
  consistent_transport := none

/-! ## Spec merge algebra (`src/builder/append.rs`)

The Rust merge emits warnings through the `warn!` macro; the embedding
returns them alongside the merged spec.  `append` itself never fails. -/

/-- A warning emitted while merging two specification fragments. -/
inductive MergeWarning where
  | iterationsConflict (first second : Nat)
  | logConflict (first second : String)
  | surfelDistanceConflict (first second : F32)
deriving DecidableEq

/-- `append_textual` from `src/builder/append.rs`. -/
def append_textual (first second delimiter : String) : String :=
  match first.trim, second.trim with
  | "", "" => ""
  | f, "" => f
  | "", s => s
  | f, s => f ++ delimiter ++ s

/-- `append_list` from `src/builder/append.rs`: `first` extended by clones
of `second`. -/
def append_list {α : Type} (first second : List α) : List α :=
  first ++ second

/-- `append_log` from `src/builder/append.rs`, with the emitted warning
made explicit. -/
def append_log :
    Option String → Option String → Option String × List MergeWarning
  | some f, some s =>
    if f = s then (some f, [])
    else (some s, [MergeWarning.logConflict f s])
  | f, s => (s.or f, [])

/-- `append_surfel_distance` from `src/builder/append.rs`, with the emitted
warning made explicit. -/
def append_surfel_distance :
    Option F32 → Option F32 → Option F32 × List MergeWarning
  | some f, some s =>
    if f ≠ s then (some s, [MergeWarning.surfelDistanceConflict f s])
    else (some s, [])
  | f, s => (s.or f, [])

/-- The inner `second_or_first` helper of `append_benchmark`. -/
def second_or_first (first second : Option String) : Option String :=
  second.or first

/-- `append_benchmark` from `src/builder/append.rs`. -/
def append_benchmark :
    Option BenchSpec → Option BenchSpec → Option BenchSpec
  | some f, some s =>
    some { iterations := second_or_first f.iterations s.iterations
           tracing := second_or_first f.tracing s.tracing
           synthesis := second_or_first f.synthesis s.synthesis
           setup := second_or_first f.setup s.setup }
  | some f, none => some f
  | none, some s => some s
  | none, none => none

/-- The `surfels_by_material` merge of `append`: `HashMap::extend`, i.e. a
key present in `second` overwrites the value from `first`; modelled on
association lists so that lookups agree with the hash map. -/
def append_map (first second : List (String × String)) :
    List (String × String) :=
  first.filter (fun p => (second.lookup p.1).isNone) ++ second

/-- Modelled from the spec: `src/builder/append.rs` predates the
`transport` field of `SimulationSpec` (`src/spec/sim.rs`) and contains no
merge for it; §4.1 lists the transport mode among the scalars with
second-wins-if-present override semantics, which is modelled here. -/
def append_transport (first second : Option Transport) : Option Transport :=
  second.or first

/-- Modelled from the spec: `src/builder/append.rs` predates the global
`rules` list of `SimulationSpec` (`src/spec/sim.rs`) and contains no merge
for it; §4.1 orders lists to be concatenated `first` then `second`, which
is modelled here. -/
def append_rules (first second : List SurfelRuleSpec) :
    List SurfelRuleSpec :=
  first ++ second

/-- `append` from `src/builder/append.rs`: merges two specification
fragments, returning the merged spec together with the warnings the Rust
code logs (in emission order: iteration conflict, log conflict, surfel
distance conflict).  The function is total — merging never fails. -/
def append (first second : SimulationSpec) :
    SimulationSpec × List MergeWarning :=
  let iterationsWarning :=
    match first.iterations, second.iterations with
    | some f, some s =>
      if f ≠ s then [MergeWarning.iterationsConflict f s] else []
    | _, _ => []
  let logMerged := append_log first.log second.log
  let surfelDistanceMerged :=
    append_surfel_distance first.surfel_distance second.surfel_distance
  ({ name := append_textual first.name second.name "-"
     description := append_textual first.description second.description "\n\n"
     scenes := append_list first.scenes second.scenes
     iterations := second.iterations.or first.iterations
     effect_interval := second.effect_interval.or first.effect_interval
     log := logMerged.1
     surfel_distance := surfelDistanceMerged.1
     sources := append_list first.sources second.sources
     surfels_by_material :=
       append_map first.surfels_by_material second.surfels_by_material
     effects := append_list first.effects second.effects
     benchmark := append_benchmark first.benchmark second.benchmark
     transport := append_transport first.transport second.transport
     rules := append_rules first.rules second.rules
     consistent_transport :=
       second.consistent_transport.or first.consistent_transport },
   iterationsWarning ++ logMerged.2 ++ surfelDistanceMerged.2)

/-! ## Simulation instantiation (`src/builder/instantiate.rs`) -/

/-- `builder::ResolveErrorKind` from `src/builder/err.rs`. -/
inductive ResolveErrorKind where
  | basePath
  | simulation
  | tonSourceSpec
  | tonSourceMesh
  | surfelSpec
  | scene
  | layer
  | benchmark
deriving DecidableEq

/-- `builder::Error` from `src/builder/err.rs`; payloads of the wrapped
external error types (`serde_yaml::Error`, `io::Error`, `AssetError`,
`ResolveError`) are not modelled. -/
inductive Error where
  | parse
  | resolve (kind : ResolveErrorKind)
  | io
  | asset
  | surfelSpecsMissing
  | effectsMissing
  | sourcesMissing
  | substancesMissing
  | invalidSurfelDistance (d : Option F32)
deriving DecidableEq

/-- The ways loading one external file can fail (`files::ResolveError`,
`std::io::Error`, `serde_yaml::Error`, `asset::err::AssetError`). -/
inductive LoadFailure where
  | resolveFailed
  | ioFailed
  | parseFailed
  | assetFailed
deriving DecidableEq

/-- How `instantiate` wraps a load failure at a call site:
`Error::resolve(e, kind)` for resolver failures and the `From` conversions
for the rest. -/
def LoadFailure.toError : LoadFailure → ResolveErrorKind → Error
  | .resolveFailed, kind => .resolve kind
  | .ioFailed, _ => .io
  | .parseFailed, _ => .parse
  | .assetFailed, _ => .asset

/-- Abnormal termination of instantiation or a cache call: a named
`builder::Error` returned as `Err`, or a Rust panic (`expect`,
`panic!`, `unimplemented!`). -/
inductive Failure where
  | err (e : Error)
  | panic (msg : String)
deriving DecidableEq

/-- The external collaborators of `instantiate`: resolver plus
`File::open` plus YAML parsing for the two spec kinds, and `obj::load`
for scenes and emission meshes (`none` models any asset load failure). -/
structure LoadOracles where
  loadSurfelSpec : String → Except LoadFailure SurfelSpec
  loadScene : String → Option (List Entity)
  loadSourceSpec : String → Except LoadFailure TonSourceSpec
  resolveSourceMesh : String → Option String
  loadMesh : String → Option (List Entity)

/-- `collect::<Result<Vec<_>, _>>()` over a mapped iterator: the first
failure short-circuits, successes keep their order. -/
def collectResults {ε α β : Type} (f : α → Except ε β) :
    List α → Except ε (List β)
  | [] => .ok []
  | a :: as =>
    match f a with
    | .error e => .error e
    | .ok b =>
      match collectResults f as with
      | .error e => .error e
      | .ok bs => .ok (b :: bs)

/-- `surfel_specs_by_material_name` from `src/builder/instantiate.rs`:
loads every surfel spec referenced by the material mapping and fails with
`SurfelSpecsMissing` when the resulting mapping is empty. -/
def surfel_specs_by_material_name (o : LoadOracles)
    (spec : SimulationSpec) : Except Error (List (String × SurfelSpec)) :=
  match collectResults
      (fun p : String × String =>
        match o.loadSurfelSpec p.2 with
        | .error e => .error (e.toError .surfelSpec)
        | .ok s => .ok (p.1, s))
      spec.surfels_by_material with
  | .error e => .error e
  | .ok specs =>
    if specs.isEmpty then .error .surfelSpecsMissing else .ok specs

/-- `load_entities` from `src/builder/instantiate.rs`: loads every scene
via `obj::load` and, when no fallback `_` surfel spec exists, drops the
entities whose material name has no mapped surfel spec. -/
def load_entities (o : LoadOracles) (paths : List String)
    (surfelSpecs : List (String × SurfelSpec)) :
    Except Error (List Entity) :=
  match paths with
  | [] => .ok []
  | p :: rest =>
    match o.loadScene p with
    | none => .error .asset
    | some loaded =>
      let kept :=
        if (surfelSpecs.lookup "_").isSome then loaded
        else loaded.filter
          (fun e => surfelSpecs.any (fun q => q.1 == e.material.name))
      match load_entities o rest surfelSpecs with
      | .error e => .error e
      | .ok more => .ok (kept ++ more)

/-- `load_source_specs` from `src/builder/instantiate.rs`.  An earlier
revision returned `Error::SourcesMissing` for an empty source list; that
check is commented out in the source, so an empty list yields `.ok []`. -/
def load_source_specs (o : LoadOracles) (sources : List String) :
    Except Error (List TonSourceSpec) :=
  collectResults
    (fun s =>
      match o.loadSourceSpec s with
      | .error e => .error (e.toError .tonSourceSpec)
      | .ok t => .ok t)
    sources

/-- The candidate substance names, in spec order: each surfel spec
contributes its `initial` and `deposit` keys, each source spec its
`initial` and `absorb` keys (the `flat_map` chain inside
`unique_substance_names` in `src/builder/instantiate.rs`). -/
def substanceNameCandidates (surfelSpecs : List SurfelSpec)
    (sourceSpecs : List TonSourceSpec) : List String :=
  (surfelSpecs.map
      (fun s => s.initial.map Prod.fst ++ s.deposit.map Prod.fst)).flatten ++
  (sourceSpecs.map
      (fun s => s.initial.map Prod.fst ++ s.absorb.map Prod.fst)).flatten

/-- An admissible iteration order of a Rust `HashSet<String>`: collecting
a duplicate-free list into the set and iterating it yields its elements in
an order the standard library leaves unspecified (the hash state is
randomized per instance), i.e. some permutation of the input. -/
def HashSetOrder (order : List String → List String) : Prop :=
  ∀ l : List String, List.Perm (order l) l

/-- `unique_substance_names` from `src/builder/instantiate.rs`: pours all
candidate names into a `HashSet` and collects the set into a vector.  The
deduplication is exact; the resulting order is whatever the set's
iteration order happens to be, represented by the `order` parameter. -/
def unique_substance_names (order : List String → List String)
    (surfelSpecs : List (String × SurfelSpec))
    (sourceSpecs : List TonSourceSpec) : List String :=
  order (substanceNameCandidates (surfelSpecs.map Prod.snd) sourceSpecs).dedup

/-- `extract_keys` from `src/builder/instantiate.rs`: the values of the
given keys, with the default in place of missing entries; the `HashMap`
argument is an association list with first-match lookup. -/
def extract_keys {K V : Type} [BEq K] (map : List (K × V)) (keys : List K)
    (dflt : V) : List V :=
  keys.map (fun k => (map.lookup k).getD dflt)

/-- `sim::TonSource` as configured by the `TonSourceBuilder` chain in
`build_sources`: emission parameters plus the per-substance initial and
pickup vectors aligned to the substance-name table. -/
structure TonSource where
  mesh : Mesh
  diffuse : Bool
  emission_count : Nat
  p_straight : F32
  p_parabolic : F32
  p_flow : F32
  substances : List F32
  pickup_rates : List F32
  interaction_radius : F32
  parabola_height : F32
  flow_distance : F32
  flow_direction : Option Vec3
deriving DecidableEq

/-- `build_sources` from `src/builder/instantiate.rs`: resolves and loads
the emission mesh of every source spec, merges a multi-entity mesh scene
into one triangle soup, panics on an empty scene, and aligns the substance
vectors to the table via `extract_keys` with default `0.0`. -/
def build_sources (o : LoadOracles) (sources : List TonSourceSpec)
    (names : List String) : Except Failure (List TonSource) :=
  match sources with
  | [] => .ok []
  | spec :: rest =>
    match o.resolveSourceMesh spec.mesh with
    | none => .error (.err (.resolve .tonSourceMesh))
    | some path =>
      match o.loadMesh path with
      | none => .error (.err .asset)
      | some scene =>
        match scene with
        | [] =>
          .error (.panic "Emission mesh scene does not contain any entities")
        | e :: es =>
          let mesh :=
            match es with
            | [] => e.mesh
            | _ => ((e :: es).map Entity.mesh).flatten
          let source : TonSource :=
            { mesh
              diffuse := spec.diffuse
              emission_count := spec.emission_count
              p_straight := spec.p_straight
              p_parabolic := spec.p_parabolic
              p_flow := spec.p_flow
              substances := extract_keys spec.initial names 0
              pickup_rates := extract_keys spec.absorb names 0
              interaction_radius := spec.interaction_radius
              parabola_height := spec.parabola_height
              flow_distance := spec.flow_distance
              flow_direction := spec.flow_direction }
          match build_sources o rest names with
          | .error f => .error f
          | .ok more => .ok (source :: more)

/-- `sim::SurfelRule`: a rule with substance names resolved to table
indices. -/
inductive SurfelRule where
  | transfer (source_substance_idx target_substance_idx : Nat) (factor : F32)
  | deteriorate (substance_idx : Nat) (factor : F32)
  | deposit (substance_idx : Nat) (amount : F32)
deriving DecidableEq

/-- `rule_by_spec` from `src/builder/instantiate.rs`: resolves the symbolic
substance names of a rule against the table, panicking (`expect`) on a name
absent from the table. -/
def rule_by_spec (spec : SurfelRuleSpec) (names : List String) :
    Except Failure SurfelRule :=
  match spec with
  | .transfer f t factor =>
    match names.findIdx? (fun n => n == f),
        names.findIdx? (fun n => n == t) with
    | some i, some j => .ok (.transfer i j factor)
    | _, _ =>
      .error (.panic "Surfel transport rule references unknown substance name")
  | .deteriorate f factor =>
    match names.findIdx? (fun n => n == f) with
    | some i => .ok (.deteriorate i factor)
    | none =>
      .error (.panic "Surfel transport rule references unknown substance name")
  | .deposit t amount =>
    match names.findIdx? (fun n => n == t) with
    | some i => .ok (.deposit i amount)
    | none =>
      .error (.panic "Surfel transport rule references unknown substance name")

/-- `sim::SurfelData`: the prototype surfel attached to every sample taken
from an entity. -/
structure SurfelData where
  entity_idx : Nat
  delta_straight : F32
  delta_parabolic : F32
  delta_flow : F32
  substances : List F32
  deposition_rates : List F32
  rules : List SurfelRule
deriving DecidableEq

/-- The sampled surface: the minimum-distance point sampling itself is an
external collaborator (`surf::SurfaceBuilder`), so the embedding records
the sampling distance and the prototype surfel of each sampled entity in
entity order. -/
structure Surface where
  surfel_distance : F32
  protos : List SurfelData
deriving DecidableEq

/-- The per-entity fold of `build_surface`: the surfel spec is the exact
material-name match, else the `_` fallback, else the entity is skipped;
the prototype carries substance vectors aligned via `extract_keys` and the
material rules resolved via `rule_by_spec` (which can panic). -/
def build_surface_protos (surfelSpecs : List (String × SurfelSpec))
    (names : List String) :
    Nat → List Entity → Except Failure (List SurfelData)
  | _, [] => .ok []
  | entity_idx, ent :: rest =>
    match (surfelSpecs.lookup ent.material.name).or
        (surfelSpecs.lookup "_") with
    | none => build_surface_protos surfelSpecs names (entity_idx + 1) rest
    | some ss =>
      match collectResults (fun r => rule_by_spec r names) ss.rules with
      | .error f => .error f
      | .ok rules =>
        match build_surface_protos surfelSpecs names (entity_idx + 1) rest with
        | .error f => .error f
        | .ok more =>
          .ok ({ entity_idx
                 delta_straight := ss.reflectance.delta_straight
                 delta_parabolic := ss.reflectance.delta_parabolic
                 delta_flow := ss.reflectance.delta_flow
                 substances := extract_keys ss.initial names 0
                 deposition_rates := extract_keys ss.deposit names 0
                 rules } :: more)

/-- `build_surface` from `src/builder/instantiate.rs`. -/
def build_surface (entities : List Entity)
    (surfelSpecs : List (String × SurfelSpec)) (names : List String)
    (surfel_distance : F32) : Except Failure Surface :=
  match build_surface_protos surfelSpecs names 0 entities with
  | .error f => .error f
  | .ok protos => .ok { surfel_distance, protos }

/-- The `sim::Transport` configuration (classic / consistent / conserving
/ differential). -/
inductive TransportModel where
  | classic
  | consistent
  | conserving
  | differential
deriving DecidableEq

/-- The transport match inside `instantiate`: differential is the default
when the spec sets none. -/
def transport_by_spec : Option Transport → TransportModel
  | some .classic => .classic
  | some .consistent => .consistent
  | some .conserving => .conserving
  | some .differential => .differential
  | none => .differential

/-- The `all_triangles` filter of `instantiate`: entities whose material
has no mapped surfel spec contribute no triangles unless a `_` fallback
spec exists. -/
def all_triangles (entities : List Entity)
    (surfelSpecs : List (String × SurfelSpec)) : List Triangle :=
  ((entities.filter
      (fun e =>
        (surfelSpecs.lookup "_").isSome ||
        surfelSpecs.any (fun q => q.1 == e.material.name))).map
    Entity.mesh).flatten

/-- The constructed `SimulationRunner` (`SimulationRunner::new`), up to
the external benchmark channels and the surfel-table pre-calculation
(modelled separately by the cache component): the spec, the substance
table, the simulation inputs and the retained entity baseline. -/
structure Runner where
  spec : SimulationSpec
  unique_substance_names : List String
  sources : List TonSource
  entities : List Entity
  surface : Surface
  transport : TransportModel
  rules : List SurfelRule
  triangles : List Triangle
deriving DecidableEq

/-- `instantiate` from `src/builder/instantiate.rs`: the full validation
and construction pipeline, with external file loading supplied by `o` and
the `HashSet` iteration order by `order`.  Named configuration errors
surface as `Failure.err`, Rust panics as `Failure.panic`; the checks occur
in source order: surfel specs, scenes, source specs, substances, effects,
sources, surfel distance, surface, global rules. -/
def instantiate (o : LoadOracles) (order : List String → List String)
    (spec : SimulationSpec) : Except Failure Runner :=
  match surfel_specs_by_material_name o spec with
  | .error e => .error (.err e)
  | .ok surfelSpecs =>
    match load_entities o spec.scenes surfelSpecs with
    | .error e => .error (.err e)
    | .ok entities =>
      match load_source_specs o spec.sources with
      | .error e => .error (.err e)
      | .ok sourceSpecs =>
        let names := unique_substance_names order surfelSpecs sourceSpecs
        if names.isEmpty then .error (.err .substancesMissing)
        else if spec.effects.isEmpty then .error (.err .effectsMissing)
        else
          match build_sources o sourceSpecs names with
          | .error f => .error f
          | .ok sources =>
            match spec.surfel_distance with
            | none => .error (.err (.invalidSurfelDistance none))
            | some d =>
              if d ≤ 0 then .error (.err (.invalidSurfelDistance (some d)))
              else
                match build_surface entities surfelSpecs names d with
                | .error f => .error f
                | .ok surface =>
                  match collectResults (fun r => rule_by_spec r names)
                      spec.rules with
                  | .error f => .error f
                  | .ok rules =>
                    .ok { spec
                          unique_substance_names := names
                          sources
                          entities
                          surface
                          transport := transport_by_spec spec.transport
                          rules
                          triangles := all_triangles entities surfelSpecs }

/-! ## Surfel table cache (`src/runner/surfel_table_cache.rs`) -/

/-- The cache `Key`: entity index, output resolution, nearest-neighbor
count and island bleed. -/
structure CacheKey where
  entity_idx : Nat
  width : Nat
  height : Nat
  count : Nat
  island_bleed : Nat
deriving DecidableEq

/-- A cached table, `Vec<Vec<(f32, usize)>>`: one surfel list (distance
and surfel index) per texel. -/
abbrev SurfelTable := List (List (F32 × Nat))

/-- `SurfelTableCache`: the backing `HashMap<Key, Vec<..>>` as an
association list. -/
structure SurfelTableCache where
  surfel_tables : List (CacheKey × SurfelTable)
deriving DecidableEq

/-- `SurfelTableCache::new`. -/
def SurfelTableCache.new : SurfelTableCache := ⟨[]⟩

/-- `HashMap::get` on the modelled table map. -/
def SurfelTableCache.find (c : SurfelTableCache) (key : CacheKey) :
    Option SurfelTable :=
  c.surfel_tables.lookup key

/-- Abnormal termination of a cache call: `unimplemented!` for
non-`Nearest` lookup policies, the slice index panic on a bad entity
index, and the `unwrap` on a missing table. -/
inductive CachePanic where
  | unsupportedLookup
  | entityIndexOutOfBounds
  | missingTable
deriving DecidableEq

/-- `SurfelTableCache::prepare`: derives the key from the parameters, then
`entry(key).or_insert_with(build_surfel_lookup_table(..))`.  The external
table builder `tex::build_surfel_lookup_table` is the `build` parameter;
`&entities[entity_idx]` panics when the index is out of bounds (only
reached when the table is actually built), and any policy other than
`Nearest` hits `unimplemented!`. -/
def SurfelTableCache.prepare
    (build : Entity → Surface → Nat → Nat → Nat → Nat → SurfelTable)
    (c : SurfelTableCache) (entity_idx width height : Nat)
    (surfel_lookup : SurfelLookup) (island_bleed : Nat)
    (entities : List Entity) (surface : Surface) :
    Except CachePanic SurfelTableCache :=
  match surfel_lookup with
  | .within _ => .error .unsupportedLookup
  | .nearest count =>
    let key : CacheKey := ⟨entity_idx, width, height, count, island_bleed⟩
    match c.find key with
    | some _ => .ok c
    | none =>
      match entities[entity_idx]? with
      | none => .error .entityIndexOutOfBounds
      | some e =>
        .ok ⟨(key, build e surface count width height island_bleed) ::
          c.surfel_tables⟩

/-- `SurfelTableCache::lookup`: returns the cached table for the derived
key, panicking (`unwrap`) when no table was prepared for it, and hitting
`unimplemented!` for non-`Nearest` policies. -/
def SurfelTableCache.lookup (c : SurfelTableCache)
    (entity_idx width height : Nat) (surfel_lookup : SurfelLookup)
    (island_bleed : Nat) : Except CachePanic SurfelTable :=
  match surfel_lookup with
  | .within _ => .error .unsupportedLookup
  | .nearest count =>
    match c.find ⟨entity_idx, width, height, count, island_bleed⟩ with
    | some t => .ok t
    | none => .error .missingTable

/-! ## Simulation runner loop (`src/runner/runner.rs`) -/

/-- Observable runner steps: one entry per tracing pass and one per run of
the whole effect pipeline, tagged with the iteration counter at that
moment. -/
inductive RunnerEvent where
  | effects (iteration : Nat)
  | trace (iteration : Nat)
deriving DecidableEq

/-- Recognizes tracing events. -/
def RunnerEvent.isTrace : RunnerEvent → Bool
  | .trace _ => true
  | _ => false

/-- `SimulationRunner::iterations`: the configured iteration count,
defaulting to 1 when the spec leaves it absent. -/
def runnerIterations (spec_iterations : Option Nat) : Nat :=
  spec_iterations.getD 1

/-- The effect decision of `perform_iteration`: with a configured
interval, effects run when `iteration % interval == 0`, otherwise only on
the last configured iteration.  `none` models the Rust panic of `%` on an
interval of zero. -/
def effects_scheduled (effect_interval : Option Nat)
    (iteration total : Nat) : Option Bool :=
  match effect_interval with
  | some interval =>
    if interval = 0 then none
    else if iteration % interval = 0 then some true
    else some (iteration = total)
  | none => some (iteration = total)

/-- `perform_iteration`: one tracing-and-transport pass, then the effect
decision; the Bool is the panic flag (remainder by zero happens after the
tracing pass). -/
def perform_iteration (effect_interval : Option Nat)
    (iteration total : Nat) : List RunnerEvent × Bool :=
  match effects_scheduled effect_interval iteration total with
  | none => ([RunnerEvent.trace iteration], true)
  | some sched =>
    (RunnerEvent.trace iteration ::
      (if sched then [RunnerEvent.effects iteration] else []), false)

/-- The `for _ in 0..self.iterations()` loop of `run`, unrolled over the
remaining count with the 1-based iteration counter carried along. -/
def run_loop (effect_interval : Option Nat) (total : Nat) :
    Nat → Nat → List RunnerEvent × Bool
  | _, 0 => ([], false)
  | iteration, remaining + 1 =>
    let step := perform_iteration effect_interval iteration total
    if step.2 then (step.1, true)
    else
      let rest := run_loop effect_interval total (iteration + 1) remaining
      (step.1 ++ rest.1, rest.2)

/-- `SimulationRunner::run`: iteration 0 applies the effect pipeline with
no tracing, then iterations 1 to `iterations()` each trace before the
effect decision. -/
def run (spec_iterations effect_interval : Option Nat) :
    List RunnerEvent × Bool :=
  let total := runnerIterations spec_iterations
  let looped := run_loop effect_interval total 1 total
  (RunnerEvent.effects 0 :: looped.1, looped.2)

/-- Lexicographic comparison of image dimensions, as Rust orders `(u32,
u32)` keys inside `max_by_key`. -/
def dimsLe (a b : Nat × Nat) : Bool :=
  Nat.blt a.1 b.1 || (Nat.beq a.1 b.1 && Nat.ble a.2 b.2)

/-- Rust `Iterator::max_by_key` keyed by image dimensions: the running
maximum is replaced whenever a later element compares greater or equal, so
the last maximal element wins. -/
def maxByDims (d : Nat × Nat) : List (Nat × Nat) → Nat × Nat
  | [] => d
  | x :: xs => maxByDims (if dimsLe d x then x else d) xs

/-- The truncating `usize → u32` cast (`w as u32` in Rust): the low 32
bits of the value. -/
def usizeToU32 (n : Nat) : Nat := n % 2 ^ 32

/-- `blend_output_size` from `src/runner/runner.rs`: explicit dimensions
win, after Rust's truncating `as u32` cast from the `usize` spec fields; a
single configured dimension is used for both axes; only when neither is
configured is the size taken from the original channel texture (if any),
else from the largest blend-stop sample — those dimensions are `u32`
already and need no cast.  `texDims` is the external `tex::open(..)`
followed by `dimensions()`, with `none` meaning the open panicked; the
overall `none` result models the `expect` panic when no size is
determinable. -/
def blend_output_size (texDims : String → Option (Nat × Nat))
    (blend : Blend) (original_tex_path : Option String) :
    Option (Nat × Nat) :=
  match blend.width, blend.height with
  | some w, some h => some (usizeToU32 w, usizeToU32 h)
  | some w, none => some (usizeToU32 w, usizeToU32 w)
  | none, some h => some (usizeToU32 h, usizeToU32 h)
  | none, none =>
    match original_tex_path with
    | some p => texDims p
    | none =>
      match (blend.stops.filterMap Stop.sample).mapM texDims with
      | none => none
      | some [] => none
      | some (d :: ds) => some (maxByDims d ds)

/-! ## Concrete fixtures used by witnesses and counterexamples -/

/-- A surfel spec naming the two substances `humidity` and `rust`. -/
def surfelSpecHumidityRust : SurfelSpec where
  name := "iron"
  description := ""
  reflectance := { delta_straight := 1, delta_parabolic := 1, delta_flow := 1 }
  initial := [("humidity", 0), ("rust", 0)]
  deposit := []
  rules := []

/-- A surfel spec naming no substances at all. -/
def surfelSpecNoSubstances : SurfelSpec where
  name := "inert"
  description := ""
  reflectance := { delta_straight := 1, delta_parabolic := 1, delta_flow := 1 }
  initial := []
  deposit := []
  rules := []

/-- A fixture oracle: every surfel spec file loads as
`surfelSpecHumidityRust`, scenes load empty, and meshes resolve to a
single-entity scene. -/
def oracleFixture : LoadOracles where
  loadSurfelSpec := fun _ => .ok surfelSpecHumidityRust
  loadScene := fun _ => some []
  loadSourceSpec := fun _ => .error LoadFailure.ioFailed
  resolveSourceMesh := fun p => some p
  loadMesh := fun _ => some []

/-- A fixture oracle whose surfel specs mention no substances. -/
def oracleFixtureNoSubstances : LoadOracles where
  loadSurfelSpec := fun _ => .ok surfelSpecNoSubstances
  loadScene := fun _ => some []
  loadSourceSpec := fun _ => .error LoadFailure.ioFailed
  resolveSourceMesh := fun p => some p
  loadMesh := fun _ => some []

/-- A blend channel configuring only a width of 64. -/
def blendWidth64 : Blend where
  width := some 64
  height := none
  stops := []
  influence := 1
  tex_pattern := "layer-{iteration}.png"

/-- A blend channel configuring only a width of `2 ^ 32`, which the `as
u32` cast truncates to zero. -/
def blendWidth2Pow32 : Blend where
  width := some (2 ^ 32)
  height := none
  stops := []
  influence := 1
  tex_pattern := "layer-{iteration}.png"

/-- A blend channel configuring only a height of 32. -/
def blendHeight32 : Blend where
  width := none
  height := some 32
  stops := []
  influence := 1
  tex_pattern := "layer-{iteration}.png"

/-- A fixture entity with an empty mesh. -/
def entityFixture : Entity where
  name := "buddha"
  mesh := []
  material :=
    { name := "bronze"
      normal_map := none
      displacement_map := none
      diffuse_color_map := none
      metallic_map := none
      roughness_map := none }

/-- A fixture surface with no samples. -/
def surfaceFixture : Surface where
  surfel_distance := 1
  protos := []

/-- A fixture stand-in for `tex::build_surfel_lookup_table`. -/
def buildFixture : Entity → Surface → Nat → Nat → Nat → Nat → SurfelTable :=
  fun _ _ _ _ _ _ => [[((1 : F32), 0)]]

/-- The cache state after preparing the fixture key on a fresh cache. -/
def cacheFixture : SurfelTableCache :=
  ⟨[(⟨0, 64, 64, 6, 2⟩, [[((1 : F32), 0)]])]⟩

/-- A specification with an empty particle-source list that passes every
other instantiation check. -/
def specNoSources : SimulationSpec :=
  { SimulationSpec.default with
      surfels_by_material := [("iron", "iron.yml")]
      effects := [EffectSpec.dumpSurfels "surfels-{iteration}.obj"]
      surfel_distance := some 1 }

/-- A specification whose surfel specs mention no substances. -/
def specNoSubstances : SimulationSpec :=
  { SimulationSpec.default with
      surfels_by_material := [("inert", "inert.yml")] }

/-- A specification with substances but an empty effect list. -/
def specNoEffects : SimulationSpec :=
  { SimulationSpec.default with
      surfels_by_material := [("iron", "iron.yml")] }

/-- A specification that is complete except for the surfel distance. -/
def specNoDistance : SimulationSpec :=
  { SimulationSpec.default with
      surfels_by_material := [("iron", "iron.yml")]
      effects := [EffectSpec.dumpSurfels "surfels-{iteration}.obj"] }

end Aitios

namespace Aitios

/-- C3: merging concatenates the ordered list fields, `first` before
`second`, preserving order and duplicates, for scenes, sources, effects
and the global surfel rules. -/
theorem append_concatenates_ordered_lists (A B : SimulationSpec) :
    (append A B).1.scenes = A.scenes ++ B.scenes ∧
    (append A B).1.sources = A.sources ++ B.sources ∧
    (append A B).1.effects = A.effects ++ B.effects ∧
    (append A B).1.rules = A.rules ++ B.rules := by
  refine ⟨rfl, rfl, rfl, rfl⟩

/-- C5: the merged iteration count, effect interval, transport mode and
consistent-transport flag are the second fragment's value when present,
else the first's; when both fragments set differing iteration counts or
differing surfel distances, the corresponding warning is emitted and the
second fragment's value is used.  `append` is total, so conflicting values
never produce an error. -/
theorem append_override_scalars (A B : SimulationSpec) :
    (append A B).1.iterations = B.iterations.or A.iterations ∧
    (append A B).1.effect_interval = B.effect_interval.or A.effect_interval ∧
    (append A B).1.transport = B.transport.or A.transport ∧
    (append A B).1.consistent_transport =
      B.consistent_transport.or A.consistent_transport ∧
    (∀ a b : Nat, A.iterations = some a → B.iterations = some b → a ≠ b →
      (append A B).1.iterations = some b ∧
      MergeWarning.iterationsConflict a b ∈ (append A B).2) ∧
    (∀ a b : F32, A.surfel_distance = some a → B.surfel_distance = some b →
      a ≠ b →
      (append A B).1.surfel_distance = some b ∧
      MergeWarning.surfelDistanceConflict a b ∈ (append A B).2) := by
  refine ⟨rfl, rfl, rfl, rfl, ?_, ?_⟩
  · intro a b ha hb hne
    constructor
    · simp [append, hb, Option.or]
    · simp [append, ha, hb, hne]
  · intro a b ha hb hne
    constructor
    · simp [append, append_surfel_distance, ha, hb, hne]
    · simp [append, append_surfel_distance, ha, hb, hne]

/-- Witness for `append_override_scalars`: merging a fragment with
`iterations = 10`, `surfel_distance = 0.02` and one with `iterations = 20`,
`surfel_distance = 0.05` keeps the second values and emits both conflict
warnings. -/
theorem append_override_scalars_witness :
    ({ SimulationSpec.default with
        iterations := some 10,
        surfel_distance := some (2 / 100) } : SimulationSpec).iterations =
      some 10 ∧
    ((append
        { SimulationSpec.default with
            iterations := some 10, surfel_distance := some (2 / 100) }
        { SimulationSpec.default with
            iterations := some 20, surfel_distance := some (5 / 100) }).1.iterations =
        some 20 ∧
      MergeWarning.iterationsConflict 10 20 ∈
        (append
          { SimulationSpec.default with
              iterations := some 10, surfel_distance := some (2 / 100) }
          { SimulationSpec.default with
              iterations := some 20, surfel_distance := some (5 / 100) }).2) ∧
    ((append
        { SimulationSpec.default with
            iterations := some 10, surfel_distance := some (2 / 100) }
        { SimulationSpec.default with
            iterations := some 20, surfel_distance := some (5 / 100) }).1.surfel_distance =
        some (5 / 100) ∧
      MergeWarning.surfelDistanceConflict (2 / 100) (5 / 100) ∈
        (append
          { SimulationSpec.default with
              iterations := some 10, surfel_distance := some (2 / 100) }
          { SimulationSpec.default with
              iterations := some 20, surfel_distance := some (5 / 100) }).2) :=
  ⟨rfl,
   (append_override_scalars _ _).2.2.2.2.1 10 20 rfl rfl (by decide),
   (append_override_scalars _ _).2.2.2.2.2 (2 / 100) (5 / 100) rfl rfl
     (by norm_num)⟩

/-- C2 counterexample: the substance-name table is collected by iterating
a `HashSet`, whose iteration order the Rust standard library leaves
unspecified and randomizes per instance; two admissible iteration orders
applied to the same surfel-spec collection yield tables with different
index assignments, so the order is not stable across instantiations. -/
theorem unique_substance_names_order_unstable :
    HashSetOrder id ∧ HashSetOrder List.reverse ∧
    unique_substance_names id [("iron", surfelSpecHumidityRust)] [] ≠
      unique_substance_names List.reverse
        [("iron", surfelSpecHumidityRust)] [] := by
  refine ⟨fun l => List.Perm.refl l, fun l => List.reverse_perm l, ?_⟩
  decide

/-- C2 amended: for every admissible hash-set iteration order the
substance-name table contains no duplicates and contains exactly the
substance names mentioned by the surfel and source specs, and two
instantiations from the same merged specification agree up to permutation
— but not necessarily with identical name-to-index assignments. -/
theorem unique_substance_names_nodup_and_stable_up_to_perm
    (order : List String → List String) (h : HashSetOrder order)
    (surfelSpecs : List (String × SurfelSpec))
    (sourceSpecs : List TonSourceSpec) :
    (unique_substance_names order surfelSpecs sourceSpecs).Nodup ∧
    (∀ s, s ∈ unique_substance_names order surfelSpecs sourceSpecs ↔
      s ∈ substanceNameCandidates (surfelSpecs.map Prod.snd) sourceSpecs) ∧
    (∀ order2, HashSetOrder order2 →
      List.Perm (unique_substance_names order surfelSpecs sourceSpecs)
        (unique_substance_names order2 surfelSpecs sourceSpecs)) := by
  refine ⟨?_, ?_, ?_⟩
  · exact ((h _).nodup_iff).2 (List.nodup_dedup _)
  · intro s
    rw [unique_substance_names, (h _).mem_iff, List.mem_dedup]
  · intro order2 h2
    exact (h _).trans (h2 _).symm

/-- Witness for `unique_substance_names_nodup_and_stable_up_to_perm` at
the identity iteration order and a one-spec collection. -/
theorem unique_substance_names_nodup_witness :
    HashSetOrder id ∧
    ((unique_substance_names id [("iron", surfelSpecHumidityRust)] []).Nodup ∧
     (∀ s, s ∈ unique_substance_names id [("iron", surfelSpecHumidityRust)] [] ↔
        s ∈ substanceNameCandidates [surfelSpecHumidityRust] []) ∧
     (∀ order2, HashSetOrder order2 →
        List.Perm (unique_substance_names id [("iron", surfelSpecHumidityRust)] [])
          (unique_substance_names order2 [("iron", surfelSpecHumidityRust)] []))) :=
  ⟨fun l => List.Perm.refl l,
   unique_substance_names_nodup_and_stable_up_to_perm id
     (fun l => List.Perm.refl l) [("iron", surfelSpecHumidityRust)] []⟩

/-- C8: `extract_keys` returns one value per requested key, and the i-th
value is the one stored in the map under the i-th key when that key is
present, else the supplied default. -/
theorem extract_keys_aligns {K V : Type} [BEq K]
    (map : List (K × V)) (keys : List K) (dflt : V)
    (i : Nat) (h : i < keys.length) :
    (extract_keys map keys dflt).length = keys.length ∧
    (extract_keys map keys dflt)[i]? =
      some (match map.lookup (keys.get ⟨i, h⟩) with
        | some v => v
        | none => dflt) := by
  constructor
  · simp [extract_keys]
  · have hg : (extract_keys map keys dflt)[i]? =
        some ((map.lookup (keys.get ⟨i, h⟩)).getD dflt) := by
      simp [extract_keys, List.getElem?_map, List.getElem?_eq_getElem h]
    rw [hg]
    cases map.lookup (keys.get ⟨i, h⟩) <;> rfl

/-- Witness for `extract_keys_aligns`: key `zinc` is absent from the map,
so index 1 receives the default 7. -/
theorem extract_keys_aligns_witness :
    1 < (["humidity", "zinc"] : List String).length ∧
    ((extract_keys [("humidity", (3 : F32)), ("rust", 4)]
        ["humidity", "zinc"] 7).length =
      (["humidity", "zinc"] : List String).length ∧
    (extract_keys [("humidity", (3 : F32)), ("rust", 4)]
        ["humidity", "zinc"] 7)[1]? =
      some (match
          ([("humidity", (3 : F32)), ("rust", 4)]).lookup
            ((["humidity", "zinc"] : List String).get ⟨1, by decide⟩) with
        | some v => v
        | none => 7)) :=
  ⟨by decide,
   extract_keys_aligns [("humidity", (3 : F32)), ("rust", 4)]
     ["humidity", "zinc"] 7 1 (by decide)⟩

/-- C1: with `effect_interval = 3` and `iterations = 7` the run applies
the effect pipeline exactly at iterations 0, 3, 6 and 7 and nowhere else:
iteration 0 is effects-only with no tracing, and each of iterations 1
through 7 performs exactly one tracing pass before its effect decision,
with the last iteration's effects forced. -/
theorem run_effect_schedule_interval3_iterations7 :
    run (some 7) (some 3) =
      ([RunnerEvent.effects 0,
        RunnerEvent.trace 1, RunnerEvent.trace 2,
        RunnerEvent.trace 3, RunnerEvent.effects 3,
        RunnerEvent.trace 4, RunnerEvent.trace 5,
        RunnerEvent.trace 6, RunnerEvent.effects 6,
        RunnerEvent.trace 7, RunnerEvent.effects 7], false) := by
  decide

/-- C9: an absent iteration count defaults to 1, and for every effect
interval the run is the iteration-0 effects-only pass followed by exactly
one tracing pass (followed by the forced last-iteration effects, except
that an interval of zero panics in `%` right after the tracing pass). -/
theorem run_defaults_to_one_iteration :
    runnerIterations none = 1 ∧
    ∀ effect_interval : Option Nat,
      ((run none effect_interval).1 =
          [RunnerEvent.effects 0, RunnerEvent.trace 1, RunnerEvent.effects 1] ∨
        (run none effect_interval).1 =
          [RunnerEvent.effects 0, RunnerEvent.trace 1]) ∧
      (run none effect_interval).1.countP RunnerEvent.isTrace = 1 := by
  refine ⟨rfl, ?_⟩
  intro iv
  rcases iv with _ | n
  · exact ⟨Or.inl rfl, rfl⟩
  rcases n with _ | n
  · exact ⟨Or.inr rfl, rfl⟩
  have hsched : effects_scheduled (some (n + 1)) 1 1 = some true := by
    by_cases hmod : 1 % (n + 1) = 0
    · simp [effects_scheduled, hmod]
    · simp [effects_scheduled, hmod]
  have hrun : run none (some (n + 1)) =
      ([RunnerEvent.effects 0, RunnerEvent.trace 1, RunnerEvent.effects 1],
        false) := by
    simp [run, run_loop, perform_iteration, runnerIterations, hsched]
  rw [hrun]
  exact ⟨Or.inl rfl, rfl⟩

/-- C10 counterexample: the source casts the configured `usize`
dimensions with `w as u32`, so a configured width of `2 ^ 32` with absent
height yields `(0, 0)` after truncation, not `(2 ^ 32, 2 ^ 32)` — the
claim's square output `(w, w)` fails for widths of `2 ^ 32` and above. -/
theorem blend_output_size_width_2pow32_truncated :
    blendWidth2Pow32.width = some (2 ^ 32) ∧
    blendWidth2Pow32.height = none ∧
    blend_output_size (fun _ => none) blendWidth2Pow32 none = some (0, 0) ∧
    blend_output_size (fun _ => none) blendWidth2Pow32 none ≠
      some (2 ^ 32, 2 ^ 32) := by
  refine ⟨rfl, rfl, ?_, ?_⟩
  · decide
  · decide

/-- C10 amended: a Layer blend channel configuring exactly one output
dimension yields a square output up to the truncating `as u32` cast —
`(w mod 2 ^ 32, w mod 2 ^ 32)` for a configured width (so `(w, w)` for
any width below `2 ^ 32`), `(h mod 2 ^ 32, h mod 2 ^ 32)` for a
configured height; configuring both yields `(w mod 2 ^ 32, h mod 2 ^
32)`; and the fallback to the original texture's or the largest stop
sample's dimensions is only consulted when both are absent (with any
dimension configured the result is independent of the image oracle and
the original texture path). -/
theorem blend_output_size_single_dimension_square
    (texDims texDims2 : String → Option (Nat × Nat)) (blend : Blend)
    (orig orig2 : Option String) :
    (∀ w h, blend.width = some w → blend.height = some h →
      blend_output_size texDims blend orig =
        some (w % 2 ^ 32, h % 2 ^ 32)) ∧
    (∀ w, blend.width = some w → blend.height = none →
      blend_output_size texDims blend orig =
        some (w % 2 ^ 32, w % 2 ^ 32)) ∧
    (∀ h, blend.width = none → blend.height = some h →
      blend_output_size texDims blend orig =
        some (h % 2 ^ 32, h % 2 ^ 32)) ∧
    (blend.width.isSome ∨ blend.height.isSome →
      blend_output_size texDims blend orig =
        blend_output_size texDims2 blend orig2) := by
  refine ⟨?_, ?_, ?_, ?_⟩
  · intro w h hw hh
    simp [blend_output_size, usizeToU32, hw, hh]
  · intro w hw hh
    simp [blend_output_size, usizeToU32, hw, hh]
  · intro h hw hh
    simp [blend_output_size, usizeToU32, hw, hh]
  · intro hsome
    rcases hw : blend.width with _ | w <;> rcases hh : blend.height with _ | h
    · rw [hw, hh] at hsome
      simp at hsome
    · simp [blend_output_size, hw, hh]
    · simp [blend_output_size, hw, hh]
    · simp [blend_output_size, hw, hh]

/-- Witness for `blend_output_size_single_dimension_square`: a width-only
blend of 64 gives 64 by 64, a height-only blend of 32 gives 32 by 32
(both unchanged by the `u32` truncation), and neither consults the image
oracle. -/
theorem blend_output_size_single_dimension_square_witness :
    blendWidth64.width = some 64 ∧ blendWidth64.height = none ∧
    blendHeight32.width = none ∧ blendHeight32.height = some 32 ∧
    blend_output_size (fun _ => none) blendWidth64 none =
      some (64 % 2 ^ 32, 64 % 2 ^ 32) ∧
    blend_output_size (fun _ => none) blendHeight32 (some "orig.png") =
      some (32 % 2 ^ 32, 32 % 2 ^ 32) ∧
    blend_output_size (fun _ => none) blendWidth64 none =
      blend_output_size (fun _ => some (7, 9)) blendWidth64
        (some "orig.png") :=
  ⟨rfl, rfl, rfl, rfl,
   (blend_output_size_single_dimension_square (fun _ => none)
       (fun _ => none) blendWidth64 none none).2.1 64 rfl rfl,
   (blend_output_size_single_dimension_square (fun _ => none)
       (fun _ => none) blendHeight32 (some "orig.png")
       (some "orig.png")).2.2.1 32 rfl rfl,
   (blend_output_size_single_dimension_square (fun _ => none)
       (fun _ => some (7, 9)) blendWidth64 none
       (some "orig.png")).2.2.2 (Or.inl rfl)⟩

/-- C4: after a successful `prepare`, a second `prepare` with the
identical key — under any builder, entity list and surface — leaves the
stored table unchanged; `lookup` with the identical key succeeds, always
returning the one stored table; and `lookup` for a key that was never
prepared fails with the `unwrap` panic rather than returning an empty
table. -/
theorem surfel_table_cache_contract
    (build build2 : Entity → Surface → Nat → Nat → Nat → Nat → SurfelTable)
    (c c' : SurfelTableCache)
    (entity_idx width height count island_bleed : Nat)
    (entities entities2 : List Entity) (surface surface2 : Surface)
    (h : c.prepare build entity_idx width height
        (SurfelLookup.nearest count) island_bleed entities surface = .ok c') :
    (c'.prepare build2 entity_idx width height
        (SurfelLookup.nearest count) island_bleed entities2 surface2 =
      .ok c') ∧
    (∃ t, c'.lookup entity_idx width height
        (SurfelLookup.nearest count) island_bleed = .ok t) ∧
    (∀ c0 : SurfelTableCache,
      c0.find ⟨entity_idx, width, height, count, island_bleed⟩ = none →
      c0.lookup entity_idx width height (SurfelLookup.nearest count)
        island_bleed = .error CachePanic.missingTable) := by
  have hfind : ∃ t,
      c'.find ⟨entity_idx, width, height, count, island_bleed⟩ = some t := by
    rw [SurfelTableCache.prepare] at h
    cases hf : c.find ⟨entity_idx, width, height, count, island_bleed⟩ with
    | some t =>
      simp [hf] at h
      exact ⟨t, by rw [← h]; exact hf⟩
    | none =>
      rw [hf] at h
      cases he : entities[entity_idx]? with
      | none => rw [he] at h; cases h
      | some e =>
        rw [he] at h
        injection h with h'
        refine ⟨build e surface count width height island_bleed, ?_⟩
        rw [← h']
        simp [SurfelTableCache.find, List.lookup]
  obtain ⟨t, hfind⟩ := hfind
  refine ⟨?_, ⟨t, ?_⟩, ?_⟩
  · rw [SurfelTableCache.prepare, hfind]
  · rw [SurfelTableCache.lookup, hfind]
  · intro c0 h0
    rw [SurfelTableCache.lookup, h0]

/-- Witness for `surfel_table_cache_contract`: preparing the key (entity
0, 64 by 64, nearest 6, bleed 2) on a fresh cache stores one table, after
which the contract holds. -/
theorem surfel_table_cache_contract_witness :
    (SurfelTableCache.new.prepare buildFixture 0 64 64
        (SurfelLookup.nearest 6) 2 [entityFixture] surfaceFixture =
      .ok cacheFixture) ∧
    ((cacheFixture.prepare buildFixture 0 64 64
        (SurfelLookup.nearest 6) 2 [] surfaceFixture = .ok cacheFixture) ∧
    (∃ t, cacheFixture.lookup 0 64 64 (SurfelLookup.nearest 6) 2 = .ok t) ∧
    (∀ c0 : SurfelTableCache,
      c0.find ⟨0, 64, 64, 6, 2⟩ = none →
      c0.lookup 0 64 64 (SurfelLookup.nearest 6) 2 =
        .error CachePanic.missingTable)) :=
  ⟨rfl,
   surfel_table_cache_contract buildFixture buildFixture
     SurfelTableCache.new cacheFixture 0 64 64 6 2 [entityFixture] []
     surfaceFixture surfaceFixture rfl⟩

/-- Any error of a `collect::<Result<..>>` comes from one of the mapped
elements. -/
theorem collectResults_error_mem {ε α β : Type} (f : α → Except ε β)
    (l : List α) (e : ε) (h : collectResults f l = .error e) :
    ∃ a ∈ l, f a = .error e := by
  induction l with
  | nil => simp [collectResults] at h
  | cons a as ih =>
    rw [collectResults] at h
    cases hfa : f a with
    | error e2 =>
      rw [hfa] at h
      injection h with h2
      exact ⟨a, List.mem_cons_self a as, by rw [hfa, h2]⟩
    | ok b =>
      rw [hfa] at h
      cases hrec : collectResults f as with
      | error e2 =>
        rw [hrec] at h
        injection h with h2
        obtain ⟨x, hx, hfx⟩ := ih (by rw [hrec, h2])
        exact ⟨x, List.mem_cons_of_mem a hx, hfx⟩
      | ok bs =>
        rw [hrec] at h
        cases h

/-- Wrapped load failures are never the `SourcesMissing` error. -/
theorem toError_ne_sourcesMissing (lf : LoadFailure)
    (k : ResolveErrorKind) : lf.toError k ≠ Error.sourcesMissing := by
  cases lf <;> simp [LoadFailure.toError]

/-- `surfel_specs_by_material_name` never fails with `SourcesMissing`. -/
theorem surfel_specs_error_not_sourcesMissing (o : LoadOracles)
    (spec : SimulationSpec) (e : Error)
    (h : surfel_specs_by_material_name o spec = .error e) :
    e ≠ Error.sourcesMissing := by
  rw [surfel_specs_by_material_name] at h
  cases hc : collectResults
      (fun p : String × String =>
        match o.loadSurfelSpec p.2 with
        | .error e2 => .error (e2.toError .surfelSpec)
        | .ok s => .ok (p.1, s))
      spec.surfels_by_material with
  | error e2 =>
    rw [hc] at h
    injection h with h2
    subst h2
    obtain ⟨p, _, hp⟩ := collectResults_error_mem _ _ _ hc
    revert hp
    cases hl : o.loadSurfelSpec p.2 with
    | error lf =>
      intro hp
      simp only [hl] at hp
      injection hp with hp2
      rw [← hp2]
      exact toError_ne_sourcesMissing lf _
    | ok s =>
      intro hp
      simp [hl] at hp
  | ok specs =>
    simp only [hc] at h
    by_cases hemp : specs.isEmpty
    · rw [if_pos hemp] at h
      injection h with h2
      rw [← h2]
      simp
    · rw [if_neg hemp] at h
      cases h

/-- Every error of `load_entities` is the wrapped asset-load error. -/
theorem load_entities_error_asset (o : LoadOracles) (paths : List String)
    (ss : List (String × SurfelSpec)) (e : Error)
    (h : load_entities o paths ss = .error e) : e = Error.asset := by
  induction paths with
  | nil => simp [load_entities] at h
  | cons p rest ih =>
    rw [load_entities] at h
    cases hs : o.loadScene p with
    | none =>
      rw [hs] at h
      injection h with h2
      exact h2.symm
    | some loaded =>
      rw [hs] at h
      cases hr : load_entities o rest ss with
      | error e2 =>
        simp only [hr] at h
        injection h with h2
        subst h2
        exact ih hr
      | ok more =>
        simp only [hr] at h
        cases h

/-- Every error of `load_source_specs` is a wrapped load failure. -/
theorem load_source_specs_error_shape (o : LoadOracles)
    (sources : List String) (e : Error)
    (h : load_source_specs o sources = .error e) :
    ∃ lf : LoadFailure, e = lf.toError ResolveErrorKind.tonSourceSpec := by
  rw [load_source_specs] at h
  obtain ⟨s, _, hs⟩ := collectResults_error_mem _ _ _ h
  revert hs
  cases hl : o.loadSourceSpec s with
  | error lf =>
    intro hs
    simp only [hl] at hs
    injection hs with hs2
    exact ⟨lf, hs2.symm⟩
  | ok t =>
    intro hs
    simp [hl] at hs

/-- `build_sources` never fails with the `SourcesMissing` error. -/
theorem build_sources_error_not_sourcesMissing (o : LoadOracles)
    (sources : List TonSourceSpec) (names : List String) (f : Failure)
    (h : build_sources o sources names = .error f) :
    f ≠ Failure.err Error.sourcesMissing := by
  induction sources with
  | nil => simp [build_sources] at h
  | cons s rest ih =>
    rw [build_sources] at h
    cases h1 : o.resolveSourceMesh s.mesh with
    | none =>
      rw [h1] at h
      injection h with h2
      rw [← h2]
      simp
    | some path =>
      simp only [h1] at h
      cases h2 : o.loadMesh path with
      | none =>
        simp only [h2] at h
        injection h with h3
        rw [← h3]
        simp
      | some scene =>
        simp only [h2] at h
        cases scene with
        | nil =>
          injection h with h3
          rw [← h3]
          simp
        | cons e es =>
          cases h3 : build_sources o rest names with
          | error f2 =>
            simp only [h3] at h
            injection h with h4
            subst h4
            exact ih h3
          | ok more =>
            simp only [h3] at h
            cases h

/-- Every error of `rule_by_spec` is a panic. -/
theorem rule_by_spec_error_panic (r : SurfelRuleSpec)
    (names : List String) (f : Failure)
    (h : rule_by_spec r names = .error f) :
    ∃ msg, f = Failure.panic msg := by
  cases r with
  | transfer a b factor =>
    rw [rule_by_spec] at h
    cases hi : names.findIdx? (fun n => n == a) with
    | none =>
      rw [hi] at h
      injection h with h2
      exact ⟨_, h2.symm⟩
    | some i =>
      rw [hi] at h
      cases hj : names.findIdx? (fun n => n == b) with
      | none =>
        rw [hj] at h
        injection h with h2
        exact ⟨_, h2.symm⟩
      | some j =>
        rw [hj] at h
        cases h
  | deteriorate a factor =>
    rw [rule_by_spec] at h
    cases hi : names.findIdx? (fun n => n == a) with
    | none =>
      rw [hi] at h
      injection h with h2
      exact ⟨_, h2.symm⟩
    | some i =>
      rw [hi] at h
      cases h
  | deposit a amount =>
    rw [rule_by_spec] at h
    cases hi : names.findIdx? (fun n => n == a) with
    | none =>
      rw [hi] at h
      injection h with h2
      exact ⟨_, h2.symm⟩
    | some i =>
      rw [hi] at h
      cases h

/-- Every error of the surface fold is a panic. -/
theorem build_surface_protos_error_panic
    (ss : List (String × SurfelSpec)) (names : List String) (idx : Nat)
    (entities : List Entity) (f : Failure)
    (h : build_surface_protos ss names idx entities = .error f) :
    ∃ msg, f = Failure.panic msg := by
  induction entities generalizing idx with
  | nil => simp [build_surface_protos] at h
  | cons ent rest ih =>
    rw [build_surface_protos] at h
    cases hl : (ss.lookup ent.material.name).or (ss.lookup "_") with
    | none =>
      rw [hl] at h
      exact ih _ h
    | some s =>
      simp only [hl] at h
      cases hc : collectResults (fun r => rule_by_spec r names) s.rules with
      | error f2 =>
        simp only [hc] at h
        injection h with h2
        subst h2
        obtain ⟨r, _, hr⟩ := collectResults_error_mem _ _ _ hc
        exact rule_by_spec_error_panic _ _ _ hr
      | ok rules =>
        simp only [hc] at h
        cases hrec : build_surface_protos ss names (idx + 1) rest with
        | error f2 =>
          simp only [hrec] at h
          injection h with h2
          subst h2
          exact ih _ hrec
        | ok more =>
          simp only [hrec] at h
          cases h

/-- Every error of `build_surface` is a panic. -/
theorem build_surface_error_panic (entities : List Entity)
    (ss : List (String × SurfelSpec)) (names : List String) (d : F32)
    (f : Failure) (h : build_surface entities ss names d = .error f) :
    ∃ msg, f = Failure.panic msg := by
  rw [build_surface] at h
  cases hp : build_surface_protos ss names 0 entities with
  | error f2 =>
    rw [hp] at h
    injection h with h2
    subst h2
    exact build_surface_protos_error_panic _ _ _ _ _ hp
  | ok protos =>
    rw [hp] at h
    cases h

/-- C6: each configuration-incompleteness condition is reported by its
distinct named error, never a generic fallback: an empty
material-to-surfel-spec mapping fails with `SurfelSpecsMissing`; an empty
substance-name table (after successful loads) fails with
`SubstancesMissing`; an empty effect list fails with `EffectsMissing`;
and an absent or non-positive sampling distance fails with
`InvalidSurfelDistance` carrying that distance. -/
theorem instantiate_named_config_errors :
    (∀ (o : LoadOracles) (order : List String → List String)
        (spec : SimulationSpec),
      spec.surfels_by_material = [] →
      instantiate o order spec = .error (.err Error.surfelSpecsMissing)) ∧
    (∀ (o : LoadOracles) (order : List String → List String)
        (spec : SimulationSpec) surfelSpecs entities sourceSpecs,
      surfel_specs_by_material_name o spec = .ok surfelSpecs →
      load_entities o spec.scenes surfelSpecs = .ok entities →
      load_source_specs o spec.sources = .ok sourceSpecs →
      unique_substance_names order surfelSpecs sourceSpecs = [] →
      instantiate o order spec = .error (.err Error.substancesMissing)) ∧
    (∀ (o : LoadOracles) (order : List String → List String)
        (spec : SimulationSpec) surfelSpecs entities sourceSpecs,
      surfel_specs_by_material_name o spec = .ok surfelSpecs →
      load_entities o spec.scenes surfelSpecs = .ok entities →
      load_source_specs o spec.sources = .ok sourceSpecs →
      unique_substance_names order surfelSpecs sourceSpecs ≠ [] →
      spec.effects = [] →
      instantiate o order spec = .error (.err Error.effectsMissing)) ∧
    (∀ (o : LoadOracles) (order : List String → List String)
        (spec : SimulationSpec) surfelSpecs entities sourceSpecs sources,
      surfel_specs_by_material_name o spec = .ok surfelSpecs →
      load_entities o spec.scenes surfelSpecs = .ok entities →
      load_source_specs o spec.sources = .ok sourceSpecs →
      unique_substance_names order surfelSpecs sourceSpecs ≠ [] →
      spec.effects ≠ [] →
      build_sources o sourceSpecs
        (unique_substance_names order surfelSpecs sourceSpecs) =
        .ok sources →
      (spec.surfel_distance = none ∨
        ∃ d, spec.surfel_distance = some d ∧ d ≤ 0) →
      instantiate o order spec =
        .error (.err (Error.invalidSurfelDistance spec.surfel_distance))) := by
  refine ⟨?_, ?_, ?_, ?_⟩
  · intro o order spec hmap
    have h1 : surfel_specs_by_material_name o spec =
        .error Error.surfelSpecsMissing := by
      rw [surfel_specs_by_material_name, hmap]
      rfl
    simp [instantiate, h1]
  · intro o order spec sS ents srcs h1 h2 h3 h4
    simp [instantiate, h1, h2, h3, h4]
  · intro o order spec sS ents srcs h1 h2 h3 h4 h5
    have h4e : (unique_substance_names order sS srcs).isEmpty = false := by
      cases hn : unique_substance_names order sS srcs
      · exact absurd hn h4
      · rfl
    simp [instantiate, h1, h2, h3, h4e, h5]
  · intro o order spec sS ents srcs sources h1 h2 h3 h4 h5 h6 h7
    have h4e : (unique_substance_names order sS srcs).isEmpty = false := by
      cases hn : unique_substance_names order sS srcs
      · exact absurd hn h4
      · rfl
    have h5e : spec.effects.isEmpty = false := by
      cases hfx : spec.effects
      · exact absurd hfx h5
      · rfl
    rcases h7 with h7 | ⟨d, hd, hdle⟩
    · simp [instantiate, h1, h2, h3, h4e, h5e, h6, h7]
    · rw [hd]
      simp only [instantiate, h1, h2, h3, h4e, h5e, h6, hd]
      simp [hdle]

/-- Witness for `instantiate_named_config_errors` on fixture
specifications exercising each of the four named errors. -/
theorem instantiate_named_config_errors_witness :
    SimulationSpec.default.surfels_by_material = [] ∧
    instantiate oracleFixture id SimulationSpec.default =
      .error (.err Error.surfelSpecsMissing) ∧
    instantiate oracleFixtureNoSubstances id specNoSubstances =
      .error (.err Error.substancesMissing) ∧
    instantiate oracleFixture id specNoEffects =
      .error (.err Error.effectsMissing) ∧
    instantiate oracleFixture id specNoDistance =
      .error (.err (Error.invalidSurfelDistance none)) :=
  ⟨rfl,
   instantiate_named_config_errors.1 oracleFixture id
     SimulationSpec.default rfl,
   instantiate_named_config_errors.2.1 oracleFixtureNoSubstances id
     specNoSubstances [("inert", surfelSpecNoSubstances)] [] [] rfl rfl rfl
     rfl,
   instantiate_named_config_errors.2.2.1 oracleFixture id specNoEffects
     [("iron", surfelSpecHumidityRust)] [] [] rfl rfl rfl (by decide) rfl,
   instantiate_named_config_errors.2.2.2 oracleFixture id specNoDistance
     [("iron", surfelSpecHumidityRust)] [] [] [] rfl rfl rfl (by decide)
     (by decide) rfl (Or.inl rfl)⟩

/-- C7 counterexample: instantiating a specification whose particle-source
list is empty succeeds (with zero sources) instead of failing with the
missing-sources error — the `SourcesMissing` check in `load_source_specs`
is commented out in the source. -/
theorem instantiate_succeeds_with_empty_sources :
    specNoSources.sources = [] ∧
    (instantiate oracleFixture id specNoSources).isOk = true :=
  ⟨rfl, by decide⟩

/-- C7 amended: an empty particle-source list does not make instantiation
fail: `load_source_specs` returns the empty source list successfully, and
`instantiate` never returns the `SourcesMissing` error on any input (the
error variant exists in `builder::Error` but is dead). -/
theorem instantiate_never_sources_missing (o : LoadOracles)
    (order : List String → List String) (spec : SimulationSpec)
    (h : spec.sources = []) :
    load_source_specs o spec.sources = .ok [] ∧
    instantiate o order spec ≠ .error (.err Error.sourcesMissing) := by
  constructor
  · rw [h]
    rfl
  · intro hc
    unfold instantiate at hc
    cases h1 : surfel_specs_by_material_name o spec with
    | error e =>
      simp only [h1] at hc
      injection hc with hc1
      injection hc1 with hc2
      exact surfel_specs_error_not_sourcesMissing o spec e h1 hc2
    | ok sS =>
      simp only [h1] at hc
      cases h2 : load_entities o spec.scenes sS with
      | error e =>
        simp only [h2] at hc
        injection hc with hc1
        injection hc1 with hc2
        rw [load_entities_error_asset o spec.scenes sS e h2] at hc2
        simp at hc2
      | ok ents =>
        simp only [h2] at hc
        cases h3 : load_source_specs o spec.sources with
        | error e =>
          simp only [h3] at hc
          injection hc with hc1
          injection hc1 with hc2
          obtain ⟨lf, rfl⟩ := load_source_specs_error_shape o spec.sources e h3
          exact toError_ne_sourcesMissing lf _ hc2
        | ok srcs =>
          simp only [h3] at hc
          by_cases h4 : (unique_substance_names order sS srcs).isEmpty = true
          · rw [if_pos h4] at hc
            simp at hc
          · rw [if_neg h4] at hc
            by_cases h5 : spec.effects.isEmpty = true
            · rw [if_pos h5] at hc
              simp at hc
            · rw [if_neg h5] at hc
              cases h6 : build_sources o srcs
                  (unique_substance_names order sS srcs) with
              | error f =>
                simp only [h6] at hc
                injection hc with hc1
                exact build_sources_error_not_sourcesMissing o srcs _ f h6 hc1
              | ok sources =>
                simp only [h6] at hc
                cases h7 : spec.surfel_distance with
                | none =>
                  simp only [h7] at hc
                  simp at hc
                | some d =>
                  simp only [h7] at hc
                  by_cases h8 : d ≤ 0
                  · rw [if_pos h8] at hc
                    simp at hc
                  · rw [if_neg h8] at hc
                    cases h9 : build_surface ents sS
                        (unique_substance_names order sS srcs) d with
                    | error f =>
                      simp only [h9] at hc
                      injection hc with hc1
                      obtain ⟨msg, rfl⟩ :=
                        build_surface_error_panic _ _ _ _ f h9
                      simp at hc1
                    | ok surface =>
                      simp only [h9] at hc
                      cases h10 : collectResults
                          (fun r => rule_by_spec r
                            (unique_substance_names order sS srcs))
                          spec.rules with
                      | error f =>
                        simp only [h10] at hc
                        injection hc with hc1
                        obtain ⟨r, _, hr⟩ :=
                          collectResults_error_mem _ _ _ h10
                        obtain ⟨msg, rfl⟩ :=
                          rule_by_spec_error_panic _ _ _ hr
                        simp at hc1
                      | ok rules =>
                        simp only [h10] at hc
                        cases hc

/-- Witness for `instantiate_never_sources_missing` at the fixture
specification with an empty source list. -/
theorem instantiate_never_sources_missing_witness :
    specNoSources.sources = [] ∧
    (load_source_specs oracleFixture specNoSources.sources = .ok [] ∧
      instantiate oracleFixture id specNoSources ≠
        .error (.err Error.sourcesMissing)) :=
  ⟨rfl, instantiate_never_sources_missing oracleFixture id specNoSources rfl⟩

end Aitios
